import Mathlib

/-!
Shallow embedding of the LED-controller firmware ingress core
(packages/device-firmware/src): the UDP frame receiver (receiver.cpp),
the heartbeat ticker (status.cpp) and the display step of the main loop
(main.cpp).  Machine integers are modelled as Nat with explicit reduction
modulo 2^32 (written 4294967296) or 2^8 (256) where C overflow semantics
matter; byte buffers are List Nat; the fallible ready-frame pointer is an
Option.  Statics of receiver.cpp become fields of `ReceiverState`.
-/

namespace Firmware

/-- Modelled from the spec: the compile-time configuration generated into
`config_autogen.h` (not under src/).  `LED_COUNT` is the per-run LED count
list; `RUN_COUNT` is its length (the generator emits one entry per run). -/
structure Config where
  L : List Nat
  deriving DecidableEq

/-- Modelled from the spec: `RUN_COUNT`, the number of runs. -/
def Config.R (cfg : Config) : Nat := cfg.L.length

/-- Modelled from the spec: `EXPECTED_MASK = (1 << RUN_COUNT) - 1`. -/
def EXPECTED_MASK (cfg : Config) : Nat := (1 <<< cfg.R) - 1

/-- receiver.cpp `calculate_frame_size`: sum over runs of `LED_COUNT[i] * 3`. -/
def frame_size (cfg : Config) : Nat := (cfg.L.map (fun n => n * 3)).sum

/-- receiver.cpp `run_offset`: sum of `LED_COUNT[i] * 3` over `i < run_index`. -/
def run_offset (cfg : Config) (run_index : Nat) : Nat :=
  ((cfg.L.take run_index).map (fun n => n * 3)).sum

/-- Unsigned 32-bit subtraction `a - b` (the C expression on `uint32_t`). -/
def sub32 (a b : Nat) : Nat :=
  (a + (4294967296 - b % 4294967296)) % 4294967296

/-- The C cast `(int32_t)n` of an unsigned 32-bit value, as an integer. -/
def toInt32 (n : Nat) : Int :=
  if n % 4294967296 < 2147483648 then ((n % 4294967296 : Nat) : Int)
  else ((n % 4294967296 : Nat) : Int) - 4294967296

/-- receiver.cpp `newer`: `(int32_t)(a - b) > 0` on `uint32_t` arguments. -/
def newer (a b : Nat) : Bool := decide (0 < toInt32 (sub32 a b))

/-- receiver.cpp `read_u16_be`: `(data[0] << 8) | data[1]`. -/
def read_u16_be (data : List Nat) : Nat :=
  (data.getD 0 0 <<< 8) ||| data.getD 1 0

/-- receiver.cpp `read_u32_be`. -/
def read_u32_be (data : List Nat) : Nat :=
  (data.getD 0 0 <<< 24) ||| (data.getD 1 0 <<< 16) |||
    (data.getD 2 0 <<< 8) ||| data.getD 3 0

/-- receiver.cpp `struct FrameSlot`.  `rgb_data` is the slot's region of the
preallocated frame buffer, held by value. -/
structure FrameSlot where
  frame_id : Nat
  received_mask : Nat
  in_use : Bool
  rgb_data : List Nat
  deriving DecidableEq

/-- receiver.h `struct ReceiverStats`. -/
structure ReceiverStats where
  rx_frames : Nat
  complete_frames : Nat
  applied_frames : Nat
  drops_len : Nat
  drops_stale : Nat
  deriving DecidableEq

/-- The static state of receiver.cpp: the two frame slots (`NUM_SLOTS = 2`),
session tracking, statistics, the error latch flag (the latched message text
carries a timestamp and the two session ids; only the flag is observed by the
claims and is modelled) and the ready-frame pointer `complete_frame`,
modelled as the bytes it points at. -/
structure ReceiverState where
  slot0 : FrameSlot
  slot1 : FrameSlot
  current_session_id : Nat
  session_initialized : Bool
  last_applied_frame_id : Nat
  stats : ReceiverStats
  has_error : Bool
  complete_frame : Option (List Nat)
  deriving DecidableEq

/-- A slot as left by receiver.cpp `clear_slots` / `receiver_init`. -/
def clearedSlot (cfg : Config) : FrameSlot :=
  { frame_id := 0, received_mask := 0, in_use := false,
    rgb_data := List.replicate (frame_size cfg) 0 }

/-- A slot as reset on allocation in `find_or_allocate_slot`. -/
def freshSlot (cfg : Config) (fid : Nat) : FrameSlot :=
  { frame_id := fid, received_mask := 0, in_use := true,
    rgb_data := List.replicate (frame_size cfg) 0 }

/-- receiver.cpp `receiver_init`. -/
def receiver_init (cfg : Config) : ReceiverState :=
  { slot0 := clearedSlot cfg, slot1 := clearedSlot cfg,
    current_session_id := 0, session_initialized := false,
    last_applied_frame_id := 0,
    stats := { rx_frames := 0, complete_frames := 0, applied_frames := 0,
               drops_len := 0, drops_stale := 0 },
    has_error := false, complete_frame := none }

/-- receiver.cpp `clear_slots`. -/
def clear_slots (cfg : Config) (st : ReceiverState) : ReceiverState :=
  { st with slot0 := clearedSlot cfg, slot1 := clearedSlot cfg }

/-- The session-change block of `receiver_handle_packet` (lines 173-183):
latch the error, adopt the new session id, reset `last_applied_frame_id`
and clear all slots. -/
def sessionChange (cfg : Config) (st : ReceiverState) (sid : Nat) : ReceiverState :=
  clear_slots cfg
    { st with has_error := true, current_session_id := sid,
              session_initialized := true, last_applied_frame_id := 0 }

/-- Slot `i` of the two-slot table (`i = 0` or `1`). -/
def getSlot (st : ReceiverState) (i : Nat) : FrameSlot :=
  if i = 0 then st.slot0 else st.slot1

/-- Replace slot `i` of the two-slot table. -/
def setSlot (st : ReceiverState) (i : Nat) (s : FrameSlot) : ReceiverState :=
  if i = 0 then { st with slot0 := s } else { st with slot1 := s }

/-- receiver.cpp `find_or_allocate_slot`, its three loops unrolled at
`NUM_SLOTS = 2`: reuse the in-use slot with this `frame_id`, else take an
empty slot, else evict the older slot (modular comparison). -/
def find_or_allocate_slot (cfg : Config) (st : ReceiverState) (fid : Nat) :
    Nat × ReceiverState :=
  if st.slot0.in_use = true ∧ st.slot0.frame_id = fid then (0, st)
  else if st.slot1.in_use = true ∧ st.slot1.frame_id = fid then (1, st)
  else if st.slot0.in_use = false then (0, setSlot st 0 (freshSlot cfg fid))
  else if st.slot1.in_use = false then (1, setSlot st 1 (freshSlot cfg fid))
  else
    let oldest := if newer st.slot0.frame_id st.slot1.frame_id then 1 else 0
    (oldest, setSlot st oldest (freshSlot cfg fid))

/-- `memcpy(dst + offset, src, src.length)` on a byte list, assuming
`offset + src.length ≤ dst.length` at every call site. -/
def copyAt (dst : List Nat) (offset : Nat) (src : List Nat) : List Nat :=
  dst.take offset ++ src ++ dst.drop (offset + src.length)

/-- Lines 185-215 of `receiver_handle_packet`: the staleness gate, the slot
merge and the completion check.  The second component reports the frame id
published as the ready frame during this call, if any (the write
`complete_frame = slot->rgb_data`). -/
def ingest (cfg : Config) (st : ReceiverState) (run_index fid : Nat)
    (rgb : List Nat) : ReceiverState × Option Nat :=
  if st.last_applied_frame_id ≠ 0 ∧ newer fid st.last_applied_frame_id = false then
    ({ st with stats := { st.stats with drops_stale := st.stats.drops_stale + 1 } },
     none)
  else
    let p := find_or_allocate_slot cfg st fid
    let slot := getSlot p.2 p.1
    let slot1 : FrameSlot :=
      { slot with
        rgb_data := copyAt slot.rgb_data (run_offset cfg run_index) rgb,
        received_mask := (slot.received_mask ||| (1 <<< run_index)) % 256 }
    let st2 := setSlot p.2 p.1 slot1
    if slot1.received_mask = EXPECTED_MASK cfg then
      let st3 := { st2 with
        stats := { st2.stats with complete_frames := st2.stats.complete_frames + 1 } }
      if st3.last_applied_frame_id = 0 ∨ newer fid st3.last_applied_frame_id = true then
        (setSlot
          { st3 with complete_frame := some slot1.rgb_data,
                     last_applied_frame_id := fid }
          p.1 { slot1 with in_use := false, received_mask := 0 }, some fid)
      else
        (setSlot st3 p.1 { slot1 with in_use := false, received_mask := 0 }, none)
    else (st2, none)

/-- receiver.cpp `receiver_handle_packet`.  The second component reports the
frame id published as the ready frame during this call, if any. -/
def receiver_handle_packet (cfg : Config) (st : ReceiverState) (run_index : Nat)
    (data : List Nat) : ReceiverState × Option Nat :=
  let st0 := { st with stats := { st.stats with rx_frames := st.stats.rx_frames + 1 } }
  if cfg.R ≤ run_index then
    ({ st0 with stats := { st0.stats with drops_len := st0.stats.drops_len + 1 } },
     none)
  else if data.length ≠ 6 + cfg.L.getD run_index 0 * 3 then
    ({ st0 with stats := { st0.stats with drops_len := st0.stats.drops_len + 1 } },
     none)
  else
    let session_id := read_u16_be data
    let frame_id := read_u32_be (data.drop 2)
    let rgb := data.drop 6
    let st1 :=
      if st0.session_initialized = false ∨ session_id ≠ st0.current_session_id then
        sessionChange cfg st0 session_id
      else st0
    ingest cfg st1 run_index frame_id rgb

/-- receiver.cpp `receiver_get_complete_frame` (the spec's
`take_ready_frame`): take and clear the ready-frame pointer, counting an
applied frame exactly when one was pending. -/
def receiver_get_complete_frame (st : ReceiverState) :
    Option (List Nat) × ReceiverState :=
  let frame := st.complete_frame
  let st1 := { st with complete_frame := none }
  match frame with
  | some f =>
      (some f,
       { st1 with
         stats := { st1.stats with applied_frames := st1.stats.applied_frames + 1 } })
  | none => (none, st1)

/-- receiver.cpp `receiver_get_and_reset_stats`. -/
def receiver_get_and_reset_stats (st : ReceiverState) :
    ReceiverStats × ReceiverState :=
  (st.stats,
   { st with stats := { rx_frames := 0, complete_frames := 0, applied_frames := 0,
                        drops_len := 0, drops_stale := 0 } })

/-- The frame-display step of main.cpp `loop` (lines 53-60): when past the
startup blackout (`ready`), take the ready frame; display it only when the
DMA is idle (`busy = false`).  The second component is the frame handed to
`driver_show_frame`, if any. -/
def loop_display_step (st : ReceiverState) (ready busy : Bool) :
    ReceiverState × Option (List Nat) :=
  if ready then
    let r := receiver_get_complete_frame st
    match r.1 with
    | some f => if busy = false then (r.2, some f) else (r.2, none)
    | none => (r.2, none)
  else (st, none)

/-- Feed a list of `(run_index, bytes)` packets to the receiver in order,
collecting the frame ids published as the ready frame. -/
def runTrace (cfg : Config) : ReceiverState → List (Nat × List Nat) →
    ReceiverState × List Nat
  | st, [] => (st, [])
  | st, p :: ps =>
      let r := receiver_handle_packet cfg st p.1 p.2
      let rest := runTrace cfg r.1 ps
      (rest.1, r.2.toList ++ rest.2)

/-- A packet whose run index and length pass the validation of
`receiver_handle_packet`. -/
def validPacket (cfg : Config) (p : Nat × List Nat) : Prop :=
  p.1 < cfg.R ∧ p.2.length = 6 + cfg.L.getD p.1 0 * 3

instance (cfg : Config) (p : Nat × List Nat) : Decidable (validPacket cfg p) :=
  decidable_of_iff (p.1 < cfg.R ∧ p.2.length = 6 + cfg.L.getD p.1 0 * 3) Iff.rfl

/-- The session id a packet carries. -/
def packet_session (p : Nat × List Nat) : Nat := read_u16_be p.2

/-- Both slots' RGB regions have exactly the preallocated frame payload
size (receiver.cpp allocates `frame_size * NUM_SLOTS` once at init). -/
def slotsWellSized (cfg : Config) (st : ReceiverState) : Prop :=
  st.slot0.rgb_data.length = frame_size cfg ∧
  st.slot1.rgb_data.length = frame_size cfg

/-- status.cpp static state: `last_heartbeat_ms` (a `uint32_t`). -/
structure StatusState where
  last_heartbeat_ms : Nat
  deriving DecidableEq

/-- status.cpp `status_poll`: emit a heartbeat iff `now - last_heartbeat_ms`
(`uint32_t` arithmetic) has reached 1000 ms, advancing `last_heartbeat_ms`
to `now` on emission.  The Bool is true iff a heartbeat was sent. -/
def status_poll (st : StatusState) (now : Nat) : StatusState × Bool :=
  if sub32 now st.last_heartbeat_ms < 1000 then (st, false)
  else ({ last_heartbeat_ms := now }, true)

/-! Concrete configurations and packets used by the boundary scenarios. -/

/-- The spec's boundary configuration: `R = 2`, `L = [4, 3]`. -/
def cfg43 : Config := ⟨[4, 3]⟩

/-- Scenario packet: run 0, session 1, frame 1, rgb `[FF,00,00] × 4`. -/
def pktA : List Nat :=
  [0, 1, 0, 0, 0, 1, 255, 0, 0, 255, 0, 0, 255, 0, 0, 255, 0, 0]

/-- Scenario packet: run 1, session 1, frame 1, rgb `[00,FF,00] × 3`. -/
def pktB : List Nat := [0, 1, 0, 0, 0, 1, 0, 255, 0, 0, 255, 0, 0, 255, 0]

/-- The expected 21-byte assembled frame of the scenario. -/
def frameAB : List Nat :=
  [255, 0, 0, 255, 0, 0, 255, 0, 0, 255, 0, 0, 0, 255, 0, 0, 255, 0, 0, 255, 0]

/-- A one-run, one-LED configuration for small traces. -/
def cfgOne : Config := ⟨[1]⟩

/-- A complete frame for `cfgOne`: session 1, frame id 0. -/
def pktZero : List Nat := [0, 1, 0, 0, 0, 0, 9, 9, 9]

/-- A complete frame for `cfgOne`: session 1, frame id `0xFFFFFFFF`. -/
def pktFF : List Nat := [0, 1, 255, 255, 255, 255, 7, 7, 7]

/-- A complete frame for `cfgOne`: session 1, frame id 1. -/
def pktOne : List Nat := [0, 1, 0, 0, 0, 1, 8, 8, 8]

/-! Projection lemmas: `setSlot` and `find_or_allocate_slot` touch only the
slot table. -/

@[simp] lemma setSlot_current_session_id (st : ReceiverState) (i : Nat)
    (s : FrameSlot) : (setSlot st i s).current_session_id = st.current_session_id := by
  unfold setSlot; split <;> rfl

@[simp] lemma setSlot_session_initialized (st : ReceiverState) (i : Nat)
    (s : FrameSlot) : (setSlot st i s).session_initialized = st.session_initialized := by
  unfold setSlot; split <;> rfl

@[simp] lemma setSlot_last_applied (st : ReceiverState) (i : Nat)
    (s : FrameSlot) : (setSlot st i s).last_applied_frame_id = st.last_applied_frame_id := by
  unfold setSlot; split <;> rfl

@[simp] lemma setSlot_stats (st : ReceiverState) (i : Nat) (s : FrameSlot) :
    (setSlot st i s).stats = st.stats := by
  unfold setSlot; split <;> rfl

@[simp] lemma setSlot_has_error (st : ReceiverState) (i : Nat) (s : FrameSlot) :
    (setSlot st i s).has_error = st.has_error := by
  unfold setSlot; split <;> rfl

@[simp] lemma setSlot_complete_frame (st : ReceiverState) (i : Nat) (s : FrameSlot) :
    (setSlot st i s).complete_frame = st.complete_frame := by
  unfold setSlot; split <;> rfl

@[simp] lemma find_or_allocate_current_session_id (cfg : Config)
    (st : ReceiverState) (fid : Nat) :
    (find_or_allocate_slot cfg st fid).2.current_session_id = st.current_session_id := by
  unfold find_or_allocate_slot
  repeat' split
  all_goals simp

@[simp] lemma find_or_allocate_session_initialized (cfg : Config)
    (st : ReceiverState) (fid : Nat) :
    (find_or_allocate_slot cfg st fid).2.session_initialized = st.session_initialized := by
  unfold find_or_allocate_slot
  repeat' split
  all_goals simp

@[simp] lemma find_or_allocate_last_applied (cfg : Config)
    (st : ReceiverState) (fid : Nat) :
    (find_or_allocate_slot cfg st fid).2.last_applied_frame_id = st.last_applied_frame_id := by
  unfold find_or_allocate_slot
  repeat' split
  all_goals simp

@[simp] lemma find_or_allocate_stats (cfg : Config)
    (st : ReceiverState) (fid : Nat) :
    (find_or_allocate_slot cfg st fid).2.stats = st.stats := by
  unfold find_or_allocate_slot
  repeat' split
  all_goals simp

@[simp] lemma find_or_allocate_has_error (cfg : Config)
    (st : ReceiverState) (fid : Nat) :
    (find_or_allocate_slot cfg st fid).2.has_error = st.has_error := by
  unfold find_or_allocate_slot
  repeat' split
  all_goals simp

@[simp] lemma find_or_allocate_complete_frame (cfg : Config)
    (st : ReceiverState) (fid : Nat) :
    (find_or_allocate_slot cfg st fid).2.complete_frame = st.complete_frame := by
  unfold find_or_allocate_slot
  repeat' split
  all_goals simp

/-- A publishing call to `ingest` leaves a ready frame set. -/
lemma ingest_publish_sets_frame (cfg : Config) (st : ReceiverState)
    (run_index fid fid2 : Nat) (rgb : List Nat) :
    (ingest cfg st run_index fid rgb).2 = some fid2 →
    (ingest cfg st run_index fid rgb).1.complete_frame.isSome = true := by
  unfold ingest
  dsimp only
  split
  · simp
  · split
    · split
      · intro _; simp
      · simp
    · simp

/-- A publishing call to `receiver_handle_packet` leaves a ready frame set. -/
lemma handle_packet_publish_sets_frame (cfg : Config) (st : ReceiverState)
    (run_index : Nat) (data : List Nat) (fid : Nat) :
    (receiver_handle_packet cfg st run_index data).2 = some fid →
    (receiver_handle_packet cfg st run_index data).1.complete_frame.isSome = true := by
  unfold receiver_handle_packet
  dsimp only
  split
  · simp
  · split
    · simp
    · exact ingest_publish_sets_frame _ _ _ _ fid _

/-- C1, counterexample: with a completed frame pending and the DMA busy at
display time (`ready = true`, `busy = true`), the main-loop display step
clears the ready-frame pointer (it is NOT held) and displays nothing, so the
frame cannot be displayed in a later iteration. -/
theorem C1_counterexample :
    (runTrace cfgOne (receiver_init cfgOne) [(0, pktZero)]).1.complete_frame.isSome
        = true ∧
    (loop_display_step (runTrace cfgOne (receiver_init cfgOne)
        [(0, pktZero)]).1 true true).1.complete_frame = none ∧
    (loop_display_step (runTrace cfgOne (receiver_init cfgOne)
        [(0, pktZero)]).1 true true).2 = none := by decide

/-- C1, amended: when a completed frame is pending and the DMA is busy at
display time, the main loop still takes the frame from the receiver —
clearing the ready-frame pointer and counting it applied — and the frame is
dropped without being displayed; at most one frame is ever queued because the
single ready-frame pointer is the whole queue, and a later newer completed
frame overwrites it (a publishing packet always leaves the pointer set). -/
theorem C1_amended :
    (∀ (st : ReceiverState) (f : List Nat), st.complete_frame = some f →
      loop_display_step st true true =
        ({ st with complete_frame := none,
                   stats := { st.stats with
                     applied_frames := st.stats.applied_frames + 1 } }, none)) ∧
    (∀ (cfg : Config) (st : ReceiverState) (run_index : Nat) (data : List Nat)
      (fid : Nat), (receiver_handle_packet cfg st run_index data).2 = some fid →
      (receiver_handle_packet cfg st run_index data).1.complete_frame.isSome = true) := by
  constructor
  · intro st f h
    simp [loop_display_step, receiver_get_complete_frame, h]
  · exact fun cfg st run_index data fid h =>
      handle_packet_publish_sets_frame cfg st run_index data fid h

/-- C1, witness for the amended theorem at a concrete pending state. -/
theorem C1_amended_witness :
    loop_display_step (runTrace cfgOne (receiver_init cfgOne) [(0, pktZero)]).1
        true true =
      ({ (runTrace cfgOne (receiver_init cfgOne) [(0, pktZero)]).1 with
          complete_frame := none,
          stats := { (runTrace cfgOne (receiver_init cfgOne)
              [(0, pktZero)]).1.stats with
            applied_frames := (runTrace cfgOne (receiver_init cfgOne)
              [(0, pktZero)]).1.stats.applied_frames + 1 } }, none) :=
  C1_amended.1 _ [9, 9, 9] (by decide)

/-- C2, counterexample: in a single session (session id 1 throughout), the
frame with id 0 is published twice in a row — the code publishes whenever
`last_applied_frame_id = 0`, and publishing frame id 0 leaves it 0 — yet
`newer 0 0` is false, so two successively published frames `a = 0, b = 0`
violate `newer(b, a)`. -/
theorem C2_counterexample :
    (runTrace cfgOne (receiver_init cfgOne) [(0, pktZero), (0, pktZero)]).2
        = [0, 0] ∧
    (runTrace cfgOne (receiver_init cfgOne)
        [(0, pktZero), (0, pktZero)]).1.current_session_id = 1 ∧
    newer 0 0 = false := by
  decide

/-- C4: with `R = 2`, `L = [4, 3]`, ingesting the two valid packets of frame
(session 1, frame 1) in either run order yields, from `take_ready_frame`, the
21-byte buffer laid out as run 0's 12 bytes then run 1's 9 bytes (runs copied
at offsets 0 and 12), with `rx_frames = 2`, `complete_frames = 1`,
`applied_frames = 1` after the take, both drop counters 0, and completion
occurring only on the second packet. -/
theorem C4_single_complete_frame :
    (receiver_get_complete_frame
        (runTrace cfg43 (receiver_init cfg43) [(0, pktA), (1, pktB)]).1).1
      = some frameAB ∧
    (receiver_get_complete_frame
        (runTrace cfg43 (receiver_init cfg43) [(1, pktB), (0, pktA)]).1).1
      = some frameAB ∧
    frameAB.length = 21 ∧
    run_offset cfg43 0 = 0 ∧ run_offset cfg43 1 = 12 ∧
    (runTrace cfg43 (receiver_init cfg43) [(0, pktA), (1, pktB)]).1.stats
      = ⟨2, 1, 0, 0, 0⟩ ∧
    (receiver_get_complete_frame
        (runTrace cfg43 (receiver_init cfg43) [(0, pktA), (1, pktB)]).1).2.stats
      = ⟨2, 1, 1, 0, 0⟩ ∧
    (receiver_get_complete_frame
        (runTrace cfg43 (receiver_init cfg43) [(1, pktB), (0, pktA)]).1).2.stats
      = ⟨2, 1, 1, 0, 0⟩ ∧
    (runTrace cfg43 (receiver_init cfg43) [(0, pktA)]).1.stats.complete_frames = 0 ∧
    (runTrace cfg43 (receiver_init cfg43) [(1, pktB)]).1.stats.complete_frames = 0 := by
  decide

/-- C6: a packet with a bad run index or a bad length increments `drops_len`
and `rx_frames` by exactly 1 and changes nothing else — the slot table, the
session state, the other counters and the ready-frame pointer are those of
the pre-state, so `take_ready_frame` still returns none if it did before. -/
theorem C6_invalid_packet_only_counts (cfg : Config) (st : ReceiverState)
    (run_index : Nat) (data : List Nat)
    (h : cfg.R ≤ run_index ∨ data.length ≠ 6 + cfg.L.getD run_index 0 * 3) :
    receiver_handle_packet cfg st run_index data =
      ({ st with stats := { st.stats with
          rx_frames := st.stats.rx_frames + 1,
          drops_len := st.stats.drops_len + 1 } }, none) := by
  unfold receiver_handle_packet
  dsimp only
  split
  · rfl
  · split
    · rfl
    · rcases h with h | h
      · omega
      · simp_all

/-- C6, witness: a 3-byte datagram on run 0 of the scenario configuration. -/
theorem C6_invalid_packet_only_counts_witness :
    receiver_handle_packet cfg43 (receiver_init cfg43) 0 [1, 2, 3] =
      ({ receiver_init cfg43 with stats := { (receiver_init cfg43).stats with
          rx_frames := (receiver_init cfg43).stats.rx_frames + 1,
          drops_len := (receiver_init cfg43).stats.drops_len + 1 } }, none) :=
  C6_invalid_packet_only_counts cfg43 (receiver_init cfg43) 0 [1, 2, 3]
    (by decide)

/-- C7: `take_ready_frame` returns the pending ready frame (the newest one
completed since the previous call) or none, increments `applied_frames`
exactly when it returns a frame, clears the pointer, and an immediately
following call returns none. -/
theorem C7_take_ready_frame_contract : ∀ st : ReceiverState,
    receiver_get_complete_frame st =
      (st.complete_frame,
       { st with complete_frame := none,
                 stats := { st.stats with
                   applied_frames := st.stats.applied_frames +
                     (if st.complete_frame.isSome then 1 else 0) } }) ∧
    (receiver_get_complete_frame (receiver_get_complete_frame st).2).1 = none := by
  intro st
  cases h : st.complete_frame <;> simp [receiver_get_complete_frame, h]

/-- C8: `newer a b` holds iff `(a - b) mod 2^32`, read as a signed 32-bit
integer, is positive — equivalently iff that residue lies in `(0, 2^31)` —
and in particular `newer 1 0xFFFFFFFF` is true, so after a complete frame
with id `0xFFFFFFFF` is applied, a complete frame with id 1 is applied
rather than dropped as stale (`drops_stale` stays 0). -/
theorem C8_newer_wraparound :
    (∀ a b : Nat, newer a b = true ↔ 0 < toInt32 (sub32 a b)) ∧
    (∀ a b : Nat, newer a b = true ↔ (0 < sub32 a b ∧ sub32 a b < 2147483648)) ∧
    newer 1 4294967295 = true ∧
    (runTrace cfgOne (receiver_init cfgOne) [(0, pktFF), (0, pktOne)]).2
      = [4294967295, 1] ∧
    (runTrace cfgOne (receiver_init cfgOne)
        [(0, pktFF), (0, pktOne)]).1.stats.drops_stale = 0 := by
  refine ⟨?_, ?_, by decide, by decide, by decide⟩
  · intro a b
    simp [newer]
  · intro a b
    have hlt : sub32 a b < 4294967296 := by
      unfold sub32
      exact Nat.mod_lt _ (by norm_num)
    simp only [newer, decide_eq_true_eq, toInt32, Nat.mod_eq_of_lt hlt]
    split <;> omega

/-- C9: `status_poll` emits at most one heartbeat per call (its result is a
single Bool); it emits none unless at least 1000 ms of monotonic time have
elapsed since the last emission, and on emission it advances
`last_heartbeat_ms` to the current time (not by +1000), so a stall is never
followed by a burst of catch-up heartbeats.  `t_last` and `t_now` are the
true monotonic times; the state and `hal::millis` carry them reduced mod
2^32, and the elapsed span is assumed below one wrap. -/
theorem C9_heartbeat_rate (t_last t_now : Nat) (hle : t_last ≤ t_now)
    (hspan : t_now - t_last < 4294967296) :
    ((status_poll ⟨t_last % 4294967296⟩ (t_now % 4294967296)).2 = true →
      1000 ≤ t_now - t_last ∧
      (status_poll ⟨t_last % 4294967296⟩ (t_now % 4294967296)).1.last_heartbeat_ms
        = t_now % 4294967296) ∧
    ((status_poll ⟨t_last % 4294967296⟩ (t_now % 4294967296)).2 = false →
      (status_poll ⟨t_last % 4294967296⟩ (t_now % 4294967296)).1.last_heartbeat_ms
        = t_last % 4294967296) := by
  unfold status_poll sub32
  dsimp only
  split
  · refine ⟨fun h => by simp at h, fun _ => rfl⟩
  · refine ⟨fun _ => ⟨?_, rfl⟩, fun h => by simp at h⟩
    rename_i hcond
    omega

/-- C9, witness: a poll 1500 ms after the last heartbeat emits and latches
the current time. -/
theorem C9_heartbeat_rate_witness :
    ((status_poll ⟨0 % 4294967296⟩ (1500 % 4294967296)).2 = true →
      1000 ≤ 1500 - 0 ∧
      (status_poll ⟨0 % 4294967296⟩ (1500 % 4294967296)).1.last_heartbeat_ms
        = 1500 % 4294967296) ∧
    ((status_poll ⟨0 % 4294967296⟩ (1500 % 4294967296)).2 = false →
      (status_poll ⟨0 % 4294967296⟩ (1500 % 4294967296)).1.last_heartbeat_ms
        = 0 % 4294967296) :=
  C9_heartbeat_rate 0 1500 (by decide) (by decide)

/-- `ingest` never touches the session fields or the error latch. -/
lemma ingest_session_fields (cfg : Config) (st : ReceiverState)
    (run_index fid : Nat) (rgb : List Nat) :
    (ingest cfg st run_index fid rgb).1.current_session_id = st.current_session_id ∧
    (ingest cfg st run_index fid rgb).1.session_initialized = st.session_initialized ∧
    (ingest cfg st run_index fid rgb).1.has_error = st.has_error := by
  unfold ingest
  dsimp only
  split
  · exact ⟨rfl, rfl, rfl⟩
  · split
    · split <;> simp
    · simp

/-- When `last_applied_frame_id = 0` the staleness gate of `ingest` cannot
fire. -/
lemma ingest_no_stale_when_zero (cfg : Config) (st : ReceiverState)
    (run_index fid : Nat) (rgb : List Nat)
    (h : st.last_applied_frame_id = 0) :
    (ingest cfg st run_index fid rgb).1.stats.drops_stale = st.stats.drops_stale := by
  unfold ingest
  dsimp only
  split
  · rename_i hc
    exact absurd h hc.1
  · split
    · split <;> simp
    · simp

/-- C3: a valid-length, valid-run packet that is the first ever ingested, or
whose session id differs from `current_session_id`, routes through the
session-change block — which latches the error, adopts the new session id,
resets `last_applied_frame_id` to 0 and clears both slots (see
`sessionChange`) — and is then ingested from that reset state, so it is
never dropped as stale whatever its frame id. -/
theorem C3_session_change (cfg : Config) (st : ReceiverState)
    (run_index : Nat) (data : List Nat)
    (hrun : run_index < cfg.R)
    (hlen : data.length = 6 + cfg.L.getD run_index 0 * 3)
    (hnew : st.session_initialized = false ∨ read_u16_be data ≠ st.current_session_id) :
    receiver_handle_packet cfg st run_index data =
      ingest cfg
        (sessionChange cfg
          { st with stats := { st.stats with rx_frames := st.stats.rx_frames + 1 } }
          (read_u16_be data))
        run_index (read_u32_be (data.drop 2)) (data.drop 6) ∧
    (receiver_handle_packet cfg st run_index data).1.current_session_id
      = read_u16_be data ∧
    (receiver_handle_packet cfg st run_index data).1.session_initialized = true ∧
    (receiver_handle_packet cfg st run_index data).1.has_error = true ∧
    (receiver_handle_packet cfg st run_index data).1.stats.drops_stale
      = st.stats.drops_stale := by
  have heq : receiver_handle_packet cfg st run_index data =
      ingest cfg
        (sessionChange cfg
          { st with stats := { st.stats with rx_frames := st.stats.rx_frames + 1 } }
          (read_u16_be data))
        run_index (read_u32_be (data.drop 2)) (data.drop 6) := by
    unfold receiver_handle_packet
    dsimp only
    rw [if_neg (by omega), if_neg (by omega)]
    rw [if_pos]
    rcases hnew with h | h
    · exact Or.inl h
    · exact Or.inr h
  refine ⟨heq, ?_, ?_, ?_, ?_⟩ <;> rw [heq]
  · exact (ingest_session_fields _ _ _ _ _).1
  · rw [(ingest_session_fields _ _ _ _ _).2.1]; rfl
  · rw [(ingest_session_fields _ _ _ _ _).2.2]; rfl
  · rw [ingest_no_stale_when_zero _ _ _ _ _ rfl]; rfl

/-- C3, witness: the first-ever packet (scenario packet A) changes session
to 1, latches the error and is not dropped as stale. -/
theorem C3_session_change_witness :
    (receiver_handle_packet cfg43 (receiver_init cfg43) 0 pktA).1.current_session_id
        = read_u16_be pktA ∧
    (receiver_handle_packet cfg43 (receiver_init cfg43) 0 pktA).1.session_initialized
        = true ∧
    (receiver_handle_packet cfg43 (receiver_init cfg43) 0 pktA).1.has_error = true ∧
    (receiver_handle_packet cfg43 (receiver_init cfg43) 0 pktA).1.stats.drops_stale
        = (receiver_init cfg43).stats.drops_stale :=
  (C3_session_change cfg43 (receiver_init cfg43) 0 pktA (by decide) (by decide)
    (by decide)).2

/-- `copyAt` is in-place when the copy fits the destination. -/
lemma copyAt_length (dst src : List Nat) (offset : Nat)
    (h : offset + src.length ≤ dst.length) :
    (copyAt dst offset src).length = dst.length := by
  unfold copyAt
  simp [List.length_take, List.length_drop]
  omega

/-- The RGB copy of run `run_index` fits inside the slot region: its byte
offset plus its byte count is at most the frame payload size. -/
lemma run_offset_add_le (cfg : Config) (run_index : Nat) (h : run_index < cfg.R) :
    run_offset cfg run_index + cfg.L.getD run_index 0 * 3 ≤ frame_size cfg := by
  unfold run_offset frame_size
  have hsplit : cfg.L.map (fun n => n * 3) =
      (cfg.L.take run_index).map (fun n => n * 3) ++
        (cfg.L.drop run_index).map (fun n => n * 3) := by
    rw [← List.map_append, List.take_append_drop]
  rw [hsplit, List.sum_append]
  have hdrop : cfg.L.drop run_index =
      cfg.L.get ⟨run_index, h⟩ :: cfg.L.drop (run_index + 1) :=
    List.drop_eq_getElem_cons h
  have hgetD : cfg.L.getD run_index 0 = cfg.L.get ⟨run_index, h⟩ :=
    List.getD_eq_getElem cfg.L 0 h
  rw [hdrop, hgetD, List.map_cons, List.sum_cons]
  omega

/-- `setSlot` keeps the slots well sized when the new slot is. -/
lemma slotsWellSized_setSlot (cfg : Config) (st : ReceiverState) (i : Nat)
    (s : FrameSlot) (hst : slotsWellSized cfg st)
    (hs : s.rgb_data.length = frame_size cfg) :
    slotsWellSized cfg (setSlot st i s) := by
  unfold setSlot slotsWellSized at *
  split
  · exact ⟨hs, hst.2⟩
  · exact ⟨hst.1, hs⟩

/-- `find_or_allocate_slot` keeps the slots well sized, and the selected
slot is well sized. -/
lemma find_or_allocate_wellSized (cfg : Config) (st : ReceiverState)
    (fid : Nat) (hst : slotsWellSized cfg st) :
    slotsWellSized cfg (find_or_allocate_slot cfg st fid).2 ∧
    (getSlot (find_or_allocate_slot cfg st fid).2
      (find_or_allocate_slot cfg st fid).1).rgb_data.length = frame_size cfg := by
  obtain ⟨h0, h1⟩ := hst
  unfold slotsWellSized find_or_allocate_slot getSlot setSlot freshSlot
  repeat' split
  all_goals simp_all

/-- The slots of `setSlot` by cases on the index. -/
lemma setSlot_slot0 (st : ReceiverState) (i : Nat) (s : FrameSlot) :
    (setSlot st i s).slot0 = if i = 0 then s else st.slot0 := by
  unfold setSlot; split <;> simp_all

/-- The slots of `setSlot` by cases on the index. -/
lemma setSlot_slot1 (st : ReceiverState) (i : Nat) (s : FrameSlot) :
    (setSlot st i s).slot1 = if i = 0 then st.slot1 else s := by
  unfold setSlot; split <;> simp_all

/-- `ingest` keeps the slots well sized when the RGB payload has the exact
per-run byte count of a run in range. -/
lemma ingest_wellSized (cfg : Config) (st : ReceiverState)
    (run_index fid : Nat) (rgb : List Nat) (hst : slotsWellSized cfg st)
    (hrun : run_index < cfg.R) (hrgb : rgb.length = cfg.L.getD run_index 0 * 3) :
    slotsWellSized cfg (ingest cfg st run_index fid rgb).1 := by
  obtain ⟨⟨hfa0, hfa1⟩, hsel⟩ := find_or_allocate_wellSized cfg st fid hst
  have hcopy : (copyAt (getSlot (find_or_allocate_slot cfg st fid).2
      (find_or_allocate_slot cfg st fid).1).rgb_data
      (run_offset cfg run_index) rgb).length = frame_size cfg := by
    rw [copyAt_length]
    · exact hsel
    · rw [hsel, hrgb]
      exact run_offset_add_le cfg run_index hrun
  unfold ingest
  dsimp only
  split
  · exact hst
  · split
    · split
      · constructor <;> simp only [setSlot_slot0, setSlot_slot1] <;>
          split <;> simp_all
      · constructor <;> simp only [setSlot_slot0, setSlot_slot1] <;>
          split <;> simp_all
    · constructor <;> simp only [setSlot_slot0, setSlot_slot1] <;>
        split <;> simp_all

/-- C5: `handle_packet` is safe for every run index and every byte sequence
of every length.  The slot-region writes stay inside the preallocated
regions — both slots keep exactly the frame payload size, and the copied
span `run_offset + 3 L[run]` fits below `frame_size` — and for every packet
rejected by the run-index or length check the result does not depend on the
packet bytes at all (the checks precede header parsing and the RGB copy). -/
theorem C5_handle_packet_safe :
    (∀ (cfg : Config) (st : ReceiverState) (run_index : Nat) (data : List Nat),
      slotsWellSized cfg st →
      slotsWellSized cfg (receiver_handle_packet cfg st run_index data).1) ∧
    (∀ (cfg : Config) (run_index : Nat), run_index < cfg.R →
      run_offset cfg run_index + cfg.L.getD run_index 0 * 3 ≤ frame_size cfg) ∧
    (∀ (cfg : Config) (st : ReceiverState) (run_index : Nat)
      (data data2 : List Nat),
      (cfg.R ≤ run_index ∨ data.length ≠ 6 + cfg.L.getD run_index 0 * 3) →
      data2.length = data.length →
      receiver_handle_packet cfg st run_index data
        = receiver_handle_packet cfg st run_index data2) := by
  refine ⟨?_, fun cfg run_index h => run_offset_add_le cfg run_index h, ?_⟩
  · intro cfg st run_index data hst
    unfold receiver_handle_packet
    dsimp only
    split
    · exact hst
    · split
      · exact hst
      · rename_i hR hlen
        have hrun : run_index < cfg.R := by omega
        have hrgb : (data.drop 6).length = cfg.L.getD run_index 0 * 3 := by
          rw [List.length_drop]
          omega
        split
        · refine ingest_wellSized cfg _ run_index _ _ ?_ hrun hrgb
          exact ⟨by simp [sessionChange, clear_slots, clearedSlot], by
            simp [sessionChange, clear_slots, clearedSlot]⟩
        · exact ingest_wellSized cfg _ run_index _ _ hst hrun hrgb
  · intro cfg st run_index data data2 hbad hlen2
    unfold receiver_handle_packet
    dsimp only
    rcases hbad with h | h
    · rw [if_pos h, if_pos h]
    · by_cases hR : cfg.R ≤ run_index
      · rw [if_pos hR, if_pos hR]
      · rw [if_neg hR, if_neg hR, if_pos h, if_pos (by omega)]

/-- C5, witness: the size invariant is kept from the initial state across a
malformed packet, the copied span fits for run 0 of the scenario
configuration, and a malformed packet's effect is decided by its length
alone. -/
theorem C5_handle_packet_safe_witness :
    slotsWellSized cfg43
      (receiver_handle_packet cfg43 (receiver_init cfg43) 0 [1, 2, 3]).1 ∧
    run_offset cfg43 0 + cfg43.L.getD 0 0 * 3 ≤ frame_size cfg43 ∧
    receiver_handle_packet cfg43 (receiver_init cfg43) 0 [1, 2, 3]
      = receiver_handle_packet cfg43 (receiver_init cfg43) 0 [4, 5, 6] :=
  ⟨C5_handle_packet_safe.1 cfg43 (receiver_init cfg43) 0 [1, 2, 3]
      (by constructor <;> decide),
   C5_handle_packet_safe.2.1 cfg43 0 (by decide),
   C5_handle_packet_safe.2.2 cfg43 (receiver_init cfg43) 0 [1, 2, 3] [4, 5, 6]
      (by decide) (by decide)⟩

/-- One `ingest` call either publishes nothing and keeps
`last_applied_frame_id`, or publishes exactly the packet's frame id, records
it in `last_applied_frame_id`, and — when `last_applied_frame_id` was
nonzero — that id passed the `newer` gate.  Session fields never change. -/
lemma ingest_step (cfg : Config) (st : ReceiverState) (run_index fid : Nat)
    (rgb : List Nat) :
    (ingest cfg st run_index fid rgb).1.session_initialized = st.session_initialized ∧
    (ingest cfg st run_index fid rgb).1.current_session_id = st.current_session_id ∧
    (((ingest cfg st run_index fid rgb).2 = none ∧
      (ingest cfg st run_index fid rgb).1.last_applied_frame_id
        = st.last_applied_frame_id) ∨
     ((ingest cfg st run_index fid rgb).2 = some fid ∧
      (ingest cfg st run_index fid rgb).1.last_applied_frame_id = fid ∧
      (st.last_applied_frame_id ≠ 0 →
        newer fid st.last_applied_frame_id = true))) := by
  unfold ingest
  dsimp only
  split
  · exact ⟨rfl, rfl, Or.inl ⟨rfl, rfl⟩⟩
  · rename_i hg
    split
    · split
      · refine ⟨by simp, by simp, Or.inr ⟨rfl, by simp, ?_⟩⟩
        intro hne
        cases hb : newer fid st.last_applied_frame_id
        · exact absurd ⟨hne, hb⟩ hg
        · rfl
      · rename_i hpub
        exfalso
        simp only [setSlot_last_applied, find_or_allocate_last_applied] at hpub
        push_neg at hpub
        exact hg ⟨hpub.1, by simpa using hpub.2⟩
    · exact ⟨by simp, by simp, Or.inl ⟨rfl, by simp⟩⟩

/-- One `handle_packet` call on a packet that cannot change the session
(invalid, or carrying the current session id) keeps the session fields and
either publishes nothing and keeps `last_applied_frame_id`, or publishes an
id, records it, and — when `last_applied_frame_id` was nonzero — that id is
newer. -/
lemma step_same_session (cfg : Config) (st : ReceiverState) (run_index : Nat)
    (data : List Nat) (hinit : st.session_initialized = true)
    (hsess : validPacket cfg (run_index, data) →
      read_u16_be data = st.current_session_id) :
    (receiver_handle_packet cfg st run_index data).1.session_initialized = true ∧
    (receiver_handle_packet cfg st run_index data).1.current_session_id
      = st.current_session_id ∧
    (((receiver_handle_packet cfg st run_index data).2 = none ∧
      (receiver_handle_packet cfg st run_index data).1.last_applied_frame_id
        = st.last_applied_frame_id) ∨
     (∃ fid, (receiver_handle_packet cfg st run_index data).2 = some fid ∧
      (receiver_handle_packet cfg st run_index data).1.last_applied_frame_id = fid ∧
      (st.last_applied_frame_id ≠ 0 →
        newer fid st.last_applied_frame_id = true))) := by
  unfold receiver_handle_packet
  dsimp only
  split
  · exact ⟨hinit, rfl, Or.inl ⟨rfl, rfl⟩⟩
  · split
    · exact ⟨hinit, rfl, Or.inl ⟨rfl, rfl⟩⟩
    · rename_i hR hlen
      have hval : validPacket cfg (run_index, data) :=
        ⟨show run_index < cfg.R by omega,
         show data.length = 6 + cfg.L.getD run_index 0 * 3 by omega⟩
      rw [if_neg]
      · obtain ⟨s1, s2, s3⟩ := ingest_step cfg
          { st with stats := { st.stats with rx_frames := st.stats.rx_frames + 1 } }
          run_index (read_u32_be (data.drop 2)) (data.drop 6)
        refine ⟨by rw [s1]; exact hinit, by rw [s2], ?_⟩
        rcases s3 with ⟨h1, h2⟩ | ⟨h1, h2, h3⟩
        · exact Or.inl ⟨h1, h2⟩
        · exact Or.inr ⟨read_u32_be (data.drop 2), h1, h2, h3⟩
      · rintro (h | h)
        · have h2 : st.session_initialized = false := h
          rw [hinit] at h2
          exact Bool.noConfusion h2
        · have h2 : read_u16_be data ≠ st.current_session_id := h
          exact h2 (hsess hval)

/-- C2, amended: within a single session, every frame id published as the
ready frame while `last_applied_frame_id` is nonzero is strictly newer
(modular) than it at the moment of handoff; hence for two successively
published frames `a` then `b` with `a ≠ 0`, `newer(b, a)` holds.  (The
counterexample forces the `≠ 0` proviso: a published id 0 leaves
`last_applied_frame_id` at 0 and constrains nothing.)  Stated as a chain
over the initial `last_applied_frame_id` and the published ids of any
same-session packet trace. -/
theorem C2_handoff_chain (cfg : Config) (st : ReceiverState)
    (ps : List (Nat × List Nat)) (hinit : st.session_initialized = true)
    (hsess : ∀ p ∈ ps, validPacket cfg p →
      packet_session p = st.current_session_id) :
    List.Chain' (fun a b => a ≠ 0 → newer b a = true)
      (st.last_applied_frame_id :: (runTrace cfg st ps).2) := by
  induction ps generalizing st with
  | nil => simp [runTrace]
  | cons p ps ih =>
    obtain ⟨s1, s2, s3⟩ := step_same_session cfg st p.1 p.2 hinit
      (fun hv => hsess p (List.mem_cons_self p ps) hv)
    have hsess2 : ∀ q ∈ ps, validPacket cfg q →
        packet_session q
          = (receiver_handle_packet cfg st p.1 p.2).1.current_session_id := by
      rw [s2]
      exact fun q hq => hsess q (List.mem_cons_of_mem p hq)
    have ih2 := ih (receiver_handle_packet cfg st p.1 p.2).1 s1 hsess2
    rcases s3 with ⟨h1, h2⟩ | ⟨fid, h1, h2, h3⟩
    · simp only [runTrace, h1, Option.toList_none, List.nil_append]
      rw [← h2]
      exact ih2
    · simp only [runTrace, h1, Option.toList_some, List.singleton_append,
        List.chain'_cons]
      refine ⟨h3, ?_⟩
      rw [← h2]
      exact ih2

/-- C2, witness for the amended theorem: from the state after the first
frame of session 1, a trace publishing frame 1 satisfies the handoff
chain. -/
theorem C2_handoff_chain_witness :
    List.Chain' (fun a b => a ≠ 0 → newer b a = true)
      ((runTrace cfgOne (receiver_init cfgOne)
          [(0, pktZero)]).1.last_applied_frame_id ::
        (runTrace cfgOne (runTrace cfgOne (receiver_init cfgOne)
          [(0, pktZero)]).1 [(0, pktOne)]).2) :=
  C2_handoff_chain cfgOne (runTrace cfgOne (receiver_init cfgOne)
      [(0, pktZero)]).1 [(0, pktOne)] (by decide) (by decide)

/-- While `last_applied_frame_id = 0` the staleness gate of `handle_packet`
never fires. -/
lemma hp_no_stale_when_zero (cfg : Config) (st : ReceiverState)
    (run_index : Nat) (data : List Nat) (h : st.last_applied_frame_id = 0) :
    (receiver_handle_packet cfg st run_index data).1.stats.drops_stale
      = st.stats.drops_stale := by
  unfold receiver_handle_packet
  dsimp only
  split
  · rfl
  · split
    · rfl
    · split
      · exact ingest_no_stale_when_zero _ _ _ _ _ rfl
      · exact ingest_no_stale_when_zero _ _ _ _ _ h

/-- A published frame id is recorded as `last_applied_frame_id`. -/
lemma hp_publish_last (cfg : Config) (st : ReceiverState) (run_index : Nat)
    (data : List Nat) (fid2 : Nat) :
    (receiver_handle_packet cfg st run_index data).2 = some fid2 →
    (receiver_handle_packet cfg st run_index data).1.last_applied_frame_id = fid2 := by
  unfold receiver_handle_packet
  dsimp only
  split
  · simp
  · split
    · simp
    · intro h
      rcases (ingest_step cfg _ run_index (read_u32_be (data.drop 2))
          (data.drop 6)).2.2 with ⟨h1, _⟩ | ⟨h1, h2, _⟩
      · rw [h1] at h
        exact Option.noConfusion h
      · rw [h1] at h
        injection h with hh
        rw [h2, hh]

/-- One fid-0 packet on the one-run configuration, from any state of session
1 with both slots free and `last_applied_frame_id = 0`, publishes frame id 0
and returns to a state of the same shape. -/
lemma pktZero_cycle (st : ReceiverState)
    (h1 : st.slot0.in_use = false) (h2 : st.slot1.in_use = false)
    (h3 : st.current_session_id = 1) (h4 : st.session_initialized = true)
    (h5 : st.last_applied_frame_id = 0) :
    (receiver_handle_packet cfgOne st 0 pktZero).2 = some 0 ∧
    (receiver_handle_packet cfgOne st 0 pktZero).1.slot0.in_use = false ∧
    (receiver_handle_packet cfgOne st 0 pktZero).1.slot1.in_use = false ∧
    (receiver_handle_packet cfgOne st 0 pktZero).1.current_session_id = 1 ∧
    (receiver_handle_packet cfgOne st 0 pktZero).1.session_initialized = true ∧
    (receiver_handle_packet cfgOne st 0 pktZero).1.last_applied_frame_id = 0 := by
  obtain ⟨s0, s1, cs, si, la, stats, he, cf⟩ := st
  obtain ⟨f0, m0, u0, r0⟩ := s0
  obtain ⟨f1, m1, u1, r1⟩ := s1
  dsimp only at h1 h2 h3 h4 h5
  subst h1 h2 h3 h4 h5
  simp [receiver_handle_packet, ingest, find_or_allocate_slot, getSlot, setSlot,
    sessionChange, clear_slots, freshSlot, copyAt, EXPECTED_MASK, Config.R,
    cfgOne, pktZero, read_u16_be, read_u32_be, run_offset, frame_size]

/-- Every packet of an all-fid-0 trace publishes, as long as the state keeps
the shape `pktZero_cycle` preserves. -/
lemma pktZero_repeat (n : Nat) : ∀ st : ReceiverState,
    st.slot0.in_use = false → st.slot1.in_use = false →
    st.current_session_id = 1 → st.session_initialized = true →
    st.last_applied_frame_id = 0 →
    (runTrace cfgOne st (List.replicate n (0, pktZero))).2 = List.replicate n 0 := by
  induction n with
  | zero =>
    intro st _ _ _ _ _
    simp [runTrace]
  | succ n ih =>
    intro st a1 a2 a3 a4 a5
    obtain ⟨c1, c2, c3, c4, c5, c6⟩ := pktZero_cycle st a1 a2 a3 a4 a5
    simp only [List.replicate_succ, runTrace, c1, Option.toList_some,
      List.singleton_append]
    rw [ih _ c2 c3 c4 c5 c6]

/-- C10: while `last_applied_frame_id = 0` the staleness gate drops nothing;
publishing a complete frame with id 0 leaves `last_applied_frame_id` at 0;
and hence, within one session, the frame id 0 can be completed and published
any number of times (an n-packet all-fid-0 trace publishes n times). -/
theorem C10_frame_zero_republish :
    (∀ (cfg : Config) (st : ReceiverState) (run_index : Nat) (data : List Nat),
      st.last_applied_frame_id = 0 →
      (receiver_handle_packet cfg st run_index data).1.stats.drops_stale
        = st.stats.drops_stale) ∧
    (∀ (cfg : Config) (st : ReceiverState) (run_index : Nat) (data : List Nat),
      (receiver_handle_packet cfg st run_index data).2 = some 0 →
      (receiver_handle_packet cfg st run_index data).1.last_applied_frame_id = 0) ∧
    (∀ n : Nat, (runTrace cfgOne (receiver_init cfgOne)
        (List.replicate n (0, pktZero))).2 = List.replicate n 0) := by
  refine ⟨fun cfg st run_index data h =>
      hp_no_stale_when_zero cfg st run_index data h,
    fun cfg st run_index data h =>
      hp_publish_last cfg st run_index data 0 h, ?_⟩
  have hfirst : receiver_handle_packet cfgOne (receiver_init cfgOne) 0 pktZero =
      ({ slot0 := ⟨0, 0, false, [9, 9, 9]⟩, slot1 := ⟨0, 0, false, [0, 0, 0]⟩,
         current_session_id := 1, session_initialized := true,
         last_applied_frame_id := 0, stats := ⟨1, 1, 0, 0, 0⟩,
         has_error := true, complete_frame := some [9, 9, 9] }, some 0) := by
    decide
  intro n
  cases n with
  | zero => simp [runTrace]
  | succ n =>
    simp only [List.replicate_succ, runTrace]
    rw [hfirst]
    simp only [Option.toList_some, List.singleton_append]
    rw [pktZero_repeat n _ (by decide) (by decide) (by decide) (by decide)
      (by decide)]

/-- C10, witness: the gate and the publish-at-zero facts at the concrete
fid-0 packet from the post-first-packet state. -/
theorem C10_frame_zero_republish_witness :
    (receiver_handle_packet cfgOne (runTrace cfgOne (receiver_init cfgOne)
        [(0, pktZero)]).1 0 pktZero).1.stats.drops_stale
      = (runTrace cfgOne (receiver_init cfgOne)
          [(0, pktZero)]).1.stats.drops_stale ∧
    (receiver_handle_packet cfgOne (runTrace cfgOne (receiver_init cfgOne)
        [(0, pktZero)]).1 0 pktZero).1.last_applied_frame_id = 0 :=
  ⟨C10_frame_zero_republish.1 cfgOne _ 0 pktZero (by decide),
   C10_frame_zero_republish.2.1 cfgOne _ 0 pktZero (by decide)⟩

end Firmware

